import Mathlib

/-!
Verification development for the Node Bootstrap & Cloud Identity Resolution
subsystem of the kops repository.

Part 1 embeds `pkg/nodeidentity/aws/identify.go`: the provider-id parsing,
the EC2 `DescribeInstances` lookup (`getInstance`), the instance-state check,
the label derivation, and the TTL-cache-fronted `IdentifyNode` flow.

Part 2 embeds the `download-or-bust` / `validate-hash` shell functions from the
nodeup bootstrap script
(`tests/integration/update_cluster/compress/data/..._user_data`).

Strings are modelled by Lean `String`; Go's `strings.Split` on a one-character
separator is reimplemented character-by-character (`splitChars`) so that its
behaviour matches Go exactly (`Split("", "/") = [""]`, etc.). Go `*string`
fields of the AWS SDK are modelled as `Option String`, with `stringValue`
mirroring `aws.StringValue` (nil becomes ""). Time is modelled in nanoseconds
as `Nat`, matching `time.Duration` arithmetic on non-negative clock readings.
-/

/-- Mirrors Go `aws.StringValue`: dereference a `*string`, nil becomes `""`. -/
def stringValue : Option String → String
  | none => ""
  | some s => s

/-- Mirrors Go `strings.Split(s, sep)` for a one-character separator, on the
character list of `s`. `splitChars [] c = [[]]` just as `Split("", "/") = [""]`. -/
def splitChars : List Char → Char → List (List Char)
  | [], _ => [[]]
  | c :: cs, sep =>
    if c = sep then
      [] :: splitChars cs sep
    else
      match splitChars cs sep with
      | [] => [[c]]
      | r :: rs => (c :: r) :: rs

/-- Mirrors Go `strconv`-style `%q` rendering used by `fmt.Errorf`, restricted
to quote-wrapping (the provider ids and state names involved need no escapes). -/
def quoted (s : String) : String := "\x22" ++ s ++ "\x22"

/-- Constant `ClusterAutoscalerNodeTemplateLabel` from identify.go. -/
def ClusterAutoscalerNodeTemplateLabel : String :=
  "k8s.io/cluster-autoscaler/node-template/label/"

/-- Constant `ec2.InstanceStateNameRunning` from the AWS SDK. -/
def instanceStateNameRunning : String := "running"

/-- Go `time.Minute` in nanoseconds. -/
def timeMinute : Nat := 60 * 1000000000

/-- Constant `cacheTTL = 60 * time.Minute` from identify.go. -/
def cacheTTL : Nat := 60 * timeMinute

/-- The `"aws://"` scheme literal checked by IdentifyNode. -/
def awsScheme : String := "aws://"

/-- Mirrors `ec2.InstanceState`: field `Name *string`. -/
structure InstanceState where
  name : Option String
deriving DecidableEq, Repr

/-- Mirrors `ec2.Tag`: fields `Key *string`, `Value *string`. -/
structure EC2Tag where
  key : Option String
  value : Option String
deriving DecidableEq, Repr

/-- Mirrors the fields of `ec2.Instance` consumed by identify.go. -/
structure Instance where
  state : Option InstanceState
  instanceLifecycle : Option String
  tags : List EC2Tag
deriving DecidableEq, Repr

/-- Mirrors `ec2.Reservation`: field `Instances []*ec2.Instance`. -/
structure Reservation where
  instances : List Instance
deriving DecidableEq, Repr

/-- Mirrors `ec2.DescribeInstancesOutput`: field `Reservations []*ec2.Reservation`. -/
structure DescribeInstancesOutput where
  reservations : List Reservation
deriving DecidableEq, Repr

/-- Mirrors `nodeidentity.Info`: `InstanceID string`, `Labels map[string]string`.
The Go map is modelled as an association list with unique keys kept by
`insertLabel` (later writes win, as for a Go map). -/
structure Info where
  instanceID : String
  labels : List (String × String)
deriving DecidableEq, Repr

/-- Mirrors `corev1.Node`'s `Spec.ProviderID` field. -/
structure NodeSpec where
  providerID : String
deriving DecidableEq, Repr

/-- Mirrors the fields of `corev1.Node` consumed by IdentifyNode. -/
structure Node where
  name : String
  spec : NodeSpec
deriving DecidableEq, Repr

/-- Go map assignment `m[k] = v`: any earlier binding of `k` is replaced. -/
def insertLabel (ls : List (String × String)) (k v : String) : List (String × String) :=
  (ls.filter (fun p => p.1 ≠ k)) ++ [(k, v)]

/-- Mirrors the `nodeIdentifier` receiver of identify.go. The EC2 client is a
function from the requested instance id to the `DescribeInstances` outcome
(`Except` models the Go `(resp, err)` pair). -/
structure NodeIdentifier where
  ec2Client : String → Except String DescribeInstancesOutput
  cacheEnabled : Bool

/-- Modelled from the spec: one entry of the IdentityCache (client-go's
`expirationcache` TTL store is not part of the sources); `{info, insertedAt}`,
with expiry `insertedAt + cacheTTL` (spec section 3). -/
structure CacheEntry where
  info : Info
  insertedAt : Nat
deriving DecidableEq, Repr

/-- Modelled from the spec: the IdentityCache contents, keyed by
`info.instanceID` (spec sections 3 and 4.3). -/
structure CacheState where
  entries : List CacheEntry
deriving DecidableEq, Repr

/-- Modelled from the spec: `get(instanceID)` of the IdentityCache — returns
the entry for the key unless absent or expired; "an entry is never returned
once its age exceeds TTL" (spec sections 3 and 4.3). -/
def cacheGet (st : CacheState) (now : Nat) (key : String) : Option Info :=
  match st.entries.find? (fun e => e.info.instanceID == key) with
  | none => none
  | some e => if now - e.insertedAt ≤ cacheTTL then some e.info else none

/-- Modelled from the spec: `put(info)` of the IdentityCache — inserts or
overwrites the entry keyed by `info.instanceID`, resetting its expiry to
now + TTL (spec section 4.3). -/
def cacheAdd (st : CacheState) (now : Nat) (info : Info) : CacheState :=
  ⟨⟨info, now⟩ :: st.entries.filter (fun e => e.info.instanceID ≠ info.instanceID)⟩

/-- Injectable cache faults, to model the `err` legs of `cache.GetByKey` and
`cache.Add` (identify.go logs these and continues). -/
structure CacheBehavior where
  readFails : Bool
  writeFails : Bool

/-- Observable side effects of one IdentifyNode call: how many cache lookups
were made, which instance ids were sent to EC2 `DescribeInstances` (one entry
per cloud call), and how many cache inserts were attempted. -/
structure Events where
  cacheGets : Nat
  cloudKeys : List String
  cachePuts : Nat
deriving DecidableEq, Repr

/-- The event log of a call that performed no cache or cloud activity. -/
def noEvents : Events := ⟨0, [], 0⟩

/-- Embeds lines 96-110 of identify.go: reject an empty `providerID`, require
the `"aws://"` scheme, split the remainder on `/` into exactly 3 tokens, and
yield `tokens[2]` as the instance id. -/
def parseProviderID (nodeName providerID : String) : Except String String :=
  if providerID = "" then
    .error ("providerID was not set for node " ++ nodeName)
  else if awsScheme.toList.isPrefixOf providerID.toList then
    match splitChars (providerID.toList.drop awsScheme.length) '/' with
    | [_tok0, _zone, iid] => .ok (String.mk iid)
    | _ => .error ("providerID " ++ quoted providerID ++ " not recognized for node " ++ nodeName)
  else
    .error ("providerID " ++ quoted providerID ++ " not recognized for node " ++ nodeName)

/-- Embeds `getInstance` (lines 166-185 of identify.go), with the Go
short-circuit `len(resp.Reservations) <= 0 || len(resp.Reservations[0].Instances) <= 0`
rendered as nested matches; only the first reservation is ever inspected. -/
def getInstance (i : NodeIdentifier) (instanceID : String) : Except String Instance :=
  match i.ec2Client instanceID with
  | .error e => .error ("error from ec2 DescribeInstances request: " ++ e)
  | .ok resp =>
    match resp.reservations with
    | [] => .error ("missing instance id: " ++ instanceID)
    | r0 :: _ =>
      match r0.instances with
      | [] => .error ("missing instance id: " ++ instanceID)
      | [inst] => .ok inst
      | _ :: _ :: _ => .error ("found multiple instances with instance id: " ++ instanceID)

/-- Embeds lines 130-133 of identify.go: the reported state name, with `"?"`
standing in when the `State` field is nil. -/
def instStateName (inst : Instance) : String :=
  match inst.state with
  | none => "?"
  | some s => stringValue s.name

/-- The body of the tag loop of lines 148-152 of identify.go: a tag whose key
carries the `ClusterAutoscalerNodeTemplateLabel` namespace contributes the
label `key-without-the-namespace = value`; any other tag contributes nothing. -/
def applyTag (ls : List (String × String)) (tag : EC2Tag) : List (String × String) :=
  if ClusterAutoscalerNodeTemplateLabel.toList.isPrefixOf (stringValue tag.key).toList then
    insertLabel ls
      (String.mk ((stringValue tag.key).toList.drop ClusterAutoscalerNodeTemplateLabel.length))
      (stringValue tag.value)
  else ls

/-- Embeds lines 138-152 of identify.go: start from the empty label map, add
`node-role.kubernetes.io/<lifecycle>-worker = "true"` when `InstanceLifecycle`
is set, then fold over the tags with `applyTag`. -/
def deriveLabels (inst : Instance) : List (String × String) :=
  let labels : List (String × String) :=
    match inst.instanceLifecycle with
    | some lc => insertLabel [] ("node-role.kubernetes.io/" ++ lc ++ "-worker") "true"
    | none => []
  inst.tags.foldl applyTag labels

/-- Embeds lines 124-152 of identify.go: the cloud lookup, the running-state
check, and the label derivation, producing the `nodeidentity.Info`. -/
def resolveInfo (i : NodeIdentifier) (instanceID : String) : Except String Info :=
  match getInstance i instanceID with
  | .error e => .error e
  | .ok inst =>
    let instanceState := instStateName inst
    if instanceState ≠ instanceStateNameRunning then
      .error ("found instance " ++ quoted instanceID ++ ", but state is " ++ quoted instanceState)
    else
      .ok { instanceID := instanceID, labels := deriveLabels inst }

/-- Embeds `IdentifyNode` (lines 95-163 of identify.go): parse and validate the
provider id, consult the cache when enabled (a read fault is logged and treated
as a miss), resolve via EC2 on a miss, and insert into the cache when enabled
(a write fault is logged and the resolved info still returned). Returns the
call result, the cache state after the call, and the observable event log. -/
def identifyNode (i : NodeIdentifier) (cb : CacheBehavior) (st : CacheState)
    (now : Nat) (node : Node) : Except String Info × CacheState × Events :=
  match parseProviderID node.name node.spec.providerID with
  | .error e => (.error e, st, noEvents)
  | .ok instanceID =>
    if i.cacheEnabled then
      let cached : Option Info := if cb.readFails then none else cacheGet st now instanceID
      match cached with
      | some info => (.ok info, st, ⟨1, [], 0⟩)
      | none =>
        match resolveInfo i instanceID with
        | .error e => (.error e, st, ⟨1, [instanceID], 0⟩)
        | .ok info =>
          if cb.writeFails then
            (.ok info, st, ⟨1, [instanceID], 1⟩)
          else
            (.ok info, cacheAdd st now info, ⟨1, [instanceID], 1⟩)
    else
      match resolveInfo i instanceID with
      | .error e => (.error e, st, ⟨0, [instanceID], 0⟩)
      | .ok info => (.ok info, st, ⟨0, [instanceID], 0⟩)

/-!
Part 2: the `download-or-bust` and `validate-hash` shell functions of the
nodeup bootstrap script. File contents are modelled as `String`; the
destination file is `Option String` (`none` = the file does not exist).
The digest function (`sha256sum`) is an abstract field of the world, since
the script only compares its hex output for string equality. A transport
attempt is one execution of a download command on a URL; the unbounded
`while true` loop is given explicit fuel (the number of full passes allowed),
with the unfueled outcome reported as not-returned-yet.
-/

/-- The external world of a fetch: what each download command fetched for each
URL (`none` = the command exited nonzero), and the digest function. -/
structure FetchWorld where
  transfer : String → String → Option String
  sha256 : String → String

/-- The four download command templates of `download-or-bust`, in the fixed
order the script tries them (the `${file}` interpolation is elided). -/
def downloadCommands : List String :=
  ["curl -f --compressed -Lo --connect-timeout 20 --retry 6 --retry-delay 10",
   "wget --compression=auto -O --connect-timeout=20 --tries=6 --wait=10",
   "curl -f -Lo --connect-timeout 20 --retry 6 --retry-delay 10",
   "wget -O --connect-timeout=20 --tries=6 --wait=10"]

/-- Embeds `validate-hash`: digest the file (a missing file leaves `actual`
empty, as `sha256sum`'s failure does under `|| true`) and compare with the
expected hex string. -/
def validateHash (w : FetchWorld) (contents : Option String) (expected : String) : Bool :=
  let actual := match contents with
    | none => ""
    | some c => w.sha256 c
  actual = expected

/-- The inner command loop of `download-or-bust` for one URL: run each command
in order; a failed download continues to the next command, a completed download
that fails `validate-hash` is removed (`rm -f`) before continuing, and a
validated download returns. Yields (file state, attempts made, returned?). -/
def tryCommandsForURL (w : FetchWorld) (expected url : String) :
    List String → Option String → Option String × Nat × Bool
  | [], file => (file, 0, false)
  | cmd :: rest, file =>
    match w.transfer cmd url with
    | none =>
      let (f, n, done) := tryCommandsForURL w expected url rest file
      (f, n + 1, done)
    | some content =>
      if validateHash w (some content) expected then
        (some content, 1, true)
      else
        let (f, n, done) := tryCommandsForURL w expected url rest none
        (f, n + 1, done)

/-- The URL loop of `download-or-bust`: one pass over all mirror URLs. -/
def tryURLs (w : FetchWorld) (expected : String) :
    List String → Option String → Option String × Nat × Bool
  | [], file => (file, 0, false)
  | url :: rest, file =>
    let (f1, n1, done1) := tryCommandsForURL w expected url downloadCommands file
    if done1 then
      (f1, n1, true)
    else
      let (f2, n2, done2) := tryURLs w expected rest f1
      (f2, n1 + n2, done2)

/-- The `while true` loop of `download-or-bust`, fueled: each unit of fuel is
one full pass over mirrors × commands followed (on failure) by `sleep 60`.
Yields (file state, attempts, sleeps, returned?). -/
def downloadLoop (w : FetchWorld) (expected : String) (urls : List String) :
    Nat → Option String → Option String × Nat × Nat × Bool
  | 0, file => (file, 0, 0, false)
  | fuel + 1, file =>
    let (f1, n1, done1) := tryURLs w expected urls file
    if done1 then
      (f1, n1, 0, true)
    else
      let (f2, n2, s2, done2) := downloadLoop w expected urls fuel f1
      (f2, n1 + n2, s2 + 1, done2)

/-- Embeds `download-or-bust`: if the destination file exists, return it when
it validates, otherwise remove it; then run the retry loop. The arguments
mirror the script's `file` (as its current contents), `hash`, `urls`. -/
def downloadOrBust (w : FetchWorld) (fuel : Nat) (file0 : Option String)
    (expected : String) (urls : List String) : Option String × Nat × Nat × Bool :=
  match file0 with
  | some c =>
    if validateHash w (some c) expected then
      (some c, 0, 0, true)
    else
      downloadLoop w expected urls fuel none
  | none => downloadLoop w expected urls fuel none

/-!
Helper lemmas about `splitChars`, matching Go's `strings.Split` behaviour.
-/

/-- Follows the fall-through structure of splitChars: the result list of Go's
Split is never empty. -/
theorem splitChars_ne_nil : ∀ (l : List Char) (sep : Char), splitChars l sep ≠ []
  | [], _ => by simp [splitChars]
  | c :: cs, sep => by
    simp only [splitChars]
    split
    · simp
    · split
      · simp
      · simp

/-- Splitting a separator-free list yields the one-element list of it. -/
theorem splitChars_no_sep : ∀ (l : List Char) (sep : Char), sep ∉ l → splitChars l sep = [l]
  | [], _, _ => rfl
  | c :: cs, sep, h => by
    have hc : ¬ (c = sep) := fun hh => h (hh ▸ List.mem_cons_self c cs)
    have ih := splitChars_no_sep cs sep (fun hm => h (List.mem_cons_of_mem c hm))
    simp only [splitChars, if_neg hc, ih]

/-- Splitting at the first separator occurrence peels off the separator-free
leading block. -/
theorem splitChars_append_sep : ∀ (xs ys : List Char) (sep : Char), sep ∉ xs →
    splitChars (xs ++ sep :: ys) sep = xs :: splitChars ys sep
  | [], ys, sep, _ => by simp [splitChars]
  | x :: xs, ys, sep, h => by
    have hx : ¬ (x = sep) := fun hh => h (hh ▸ List.mem_cons_self x xs)
    have ih := splitChars_append_sep xs ys sep (fun hm => h (List.mem_cons_of_mem x hm))
    simp only [List.cons_append, splitChars, if_neg hx, List.append_eq, ih]

/-- A well-formed aws provider id with slash-free segments splits into exactly
the three segments, and parsing yields the third as the instance id. -/
theorem parseProviderID_ok (nm a b c : String)
    (ha : '/' ∉ a.toList) (hb : '/' ∉ b.toList) (hc : '/' ∉ c.toList) :
    parseProviderID nm ("aws://" ++ a ++ "/" ++ b ++ "/" ++ c) = .ok c := by
  have hlist : ("aws://" ++ a ++ "/" ++ b ++ "/" ++ c).toList
      = "aws://".toList ++ (a.toList ++ '/' :: (b.toList ++ '/' :: c.toList)) := by
    show (((("aws://".toList ++ a.toList) ++ ['/']) ++ b.toList) ++ ['/']) ++ c.toList
      = "aws://".toList ++ (a.toList ++ '/' :: (b.toList ++ '/' :: c.toList))
    simp [List.append_assoc]
  have hchars : "aws://".toList = ['a', 'w', 's', ':', '/', '/'] := rfl
  have hne : ¬ ("aws://" ++ a ++ "/" ++ b ++ "/" ++ c = "") := by
    intro h
    have h2 := congrArg String.toList h
    rw [hlist, hchars] at h2
    simp at h2
  have hpre : awsScheme.toList.isPrefixOf ("aws://" ++ a ++ "/" ++ b ++ "/" ++ c).toList = true := by
    rw [hlist, List.isPrefixOf_iff_prefix]
    exact List.prefix_append _ _
  have hdrop : ("aws://" ++ a ++ "/" ++ b ++ "/" ++ c).toList.drop awsScheme.length
      = a.toList ++ '/' :: (b.toList ++ '/' :: c.toList) := by
    rw [hlist]
    exact List.drop_left _ _
  have hsplit : splitChars (a.toList ++ '/' :: (b.toList ++ '/' :: c.toList)) '/'
      = [a.toList, b.toList, c.toList] := by
    rw [splitChars_append_sep _ _ _ ha, splitChars_append_sep _ _ _ hb,
      splitChars_no_sep _ _ hc]
  unfold parseProviderID
  rw [if_neg hne, if_pos hpre, hdrop, hsplit]
  rfl

/-- The malformed provider-id conditions rejected by IdentifyNode before any
cache or cloud activity: empty string, wrong scheme, or a slash-token count
other than 3. -/
def malformedProviderID (pid : String) : Prop :=
  pid = "" ∨ awsScheme.toList.isPrefixOf pid.toList = false ∨
    (splitChars (pid.toList.drop awsScheme.length) '/').length ≠ 3

/-- Every malformed provider id makes the parsing step return an error. -/
theorem parseProviderID_malformed (nm pid : String) (h : malformedProviderID pid) :
    ∃ e, parseProviderID nm pid = .error e := by
  unfold parseProviderID
  by_cases h0 : pid = ""
  · rw [if_pos h0]
    exact ⟨_, rfl⟩
  rw [if_neg h0]
  by_cases hp : awsScheme.toList.isPrefixOf pid.toList = true
  · rw [if_pos hp]
    rcases h with h | h | h
    · exact absurd h h0
    · rw [hp] at h
      simp at h
    · rcases hs : splitChars (pid.toList.drop awsScheme.length) '/' with
        _ | ⟨t0, _ | ⟨t1, _ | ⟨t2, _ | ⟨t3, rest⟩⟩⟩⟩
      · exact ⟨_, rfl⟩
      · exact ⟨_, rfl⟩
      · exact ⟨_, rfl⟩
      · rw [hs] at h
        simp at h
      · exact ⟨_, rfl⟩
  · rw [if_neg hp]
    exact ⟨_, rfl⟩

/-- C1: for every well-formed provider id `scheme://zone/id` (the `aws` scheme
followed by exactly three slash-separated tokens), the parsing step of
IdentifyNode yields exactly the final token as the instance id; for every
malformed provider id (empty, wrong scheme, or a token count other than 3),
IdentifyNode returns an error immediately with no cache lookup and zero cloud
calls. -/
theorem C1_provider_id_parse_and_reject :
    (∀ nm a b c, '/' ∉ a.toList → '/' ∉ b.toList → '/' ∉ c.toList →
      parseProviderID nm ("aws://" ++ a ++ "/" ++ b ++ "/" ++ c) = .ok c) ∧
    (∀ i cb st now node, malformedProviderID node.spec.providerID →
      (∃ e, (identifyNode i cb st now node).1 = .error e) ∧
      (identifyNode i cb st now node).2.2 = noEvents) := by
  constructor
  · exact parseProviderID_ok
  · intro i cb st now node h
    obtain ⟨e, he⟩ := parseProviderID_malformed node.name node.spec.providerID h
    refine ⟨⟨e, ?_⟩, ?_⟩ <;> simp [identifyNode, he]

/-- Witness for C1 at concrete inputs: the provider id
`aws:///us-test-1a/i-0abc` parses to `i-0abc`, and the wrong-scheme id
`gce://a/b/c` is rejected. -/
theorem C1_provider_id_parse_and_reject_witness :
    parseProviderID "node-1" ("aws://" ++ "" ++ "/" ++ "us-test-1a" ++ "/" ++ "i-0abc")
        = .ok "i-0abc" ∧
    (∃ e, (identifyNode ⟨fun _ => .error "cloud down", false⟩ ⟨false, false⟩ ⟨[]⟩ 0
        ⟨"node-1", ⟨"gce://a/b/c"⟩⟩).1 = .error e) := by
  constructor
  · exact C1_provider_id_parse_and_reject.1 "node-1" "" "us-test-1a" "i-0abc"
      (by decide) (by decide) (by decide)
  · exact (C1_provider_id_parse_and_reject.2 ⟨fun _ => .error "cloud down", false⟩
      ⟨false, false⟩ ⟨[]⟩ 0 ⟨"node-1", ⟨"gce://a/b/c"⟩⟩
      (Or.inr (Or.inl (by decide)))).1

/-- C10: provider-id validation checks only the `aws://` scheme and the token
count, never token contents: any id of that shape is accepted regardless of the
segments' values (empty segments included) and the third token — sent verbatim
to the cloud lookup — is the instance id; in particular `aws://a/b/` passes
validation with the empty string as instance id. -/
theorem C10_validation_ignores_segment_contents :
    (∀ i cb st now nm a b c, '/' ∉ a.toList → '/' ∉ b.toList → '/' ∉ c.toList →
      i.cacheEnabled = false →
      (identifyNode i cb st now ⟨nm, ⟨"aws://" ++ a ++ "/" ++ b ++ "/" ++ c⟩⟩).2.2.cloudKeys
        = [c]) ∧
    parseProviderID "node-1" "aws://a/b/" = .ok "" := by
  constructor
  · intro i cb st now nm a b c ha hb hc hcache
    have hp := parseProviderID_ok nm a b c ha hb hc
    simp only [identifyNode, hp, hcache]
    cases hr : resolveInfo i c <;> simp [hr]
  · rfl

/-- Witness for C10 at concrete inputs: with caching disabled, the empty third
segment of `aws://a/b/` is sent to the cloud lookup as the instance id. -/
theorem C10_validation_ignores_segment_contents_witness :
    (identifyNode ⟨fun _ => .error "cloud down", false⟩ ⟨false, false⟩ ⟨[]⟩ 0
      ⟨"node-1", ⟨"aws://" ++ "a" ++ "/" ++ "b" ++ "/" ++ ""⟩⟩).2.2.cloudKeys = [""] :=
  C10_validation_ignores_segment_contents.1 ⟨fun _ => .error "cloud down", false⟩
    ⟨false, false⟩ ⟨[]⟩ 0 "node-1" "a" "b" "" (by decide) (by decide) (by decide) rfl

/-- A running EC2 instance with no lifecycle attribute and no tags. -/
def runningInst : Instance := ⟨some ⟨some "running"⟩, none, []⟩

/-- A stopped EC2 instance with no lifecycle attribute and no tags. -/
def stoppedInst : Instance := ⟨some ⟨some "stopped"⟩, none, []⟩

/-- When the sole matched instance is not running, resolution stops at the
state check with an error naming the state. -/
theorem resolveInfo_error_state (i : NodeIdentifier) (iid : String) (inst : Instance)
    (hget : getInstance i iid = .ok inst)
    (h : instStateName inst ≠ instanceStateNameRunning) :
    resolveInfo i iid
      = .error ("found instance " ++ quoted iid ++ ", but state is " ++ quoted (instStateName inst)) := by
  simp only [resolveInfo, hget]
  rw [if_pos h]

/-- When the sole matched instance is running, resolution proceeds to label
derivation and returns the constructed info. -/
theorem resolveInfo_ok_state (i : NodeIdentifier) (iid : String) (inst : Instance)
    (hget : getInstance i iid = .ok inst)
    (h : instStateName inst = instanceStateNameRunning) :
    resolveInfo i iid = .ok ⟨iid, deriveLabels inst⟩ := by
  simp only [resolveInfo, hget]
  rw [if_neg (by simp [h])]

/-- With caching disabled and a successfully parsed provider id, the call
result of IdentifyNode is exactly the cloud resolution result. -/
theorem identifyNode_nocache (i : NodeIdentifier) (cb : CacheBehavior) (st : CacheState)
    (now : Nat) (node : Node) (iid : String) (hc : i.cacheEnabled = false)
    (hp : parseProviderID node.name node.spec.providerID = .ok iid) :
    (identifyNode i cb st now node).1 = resolveInfo i iid := by
  simp only [identifyNode, hp, hc]
  cases hr : resolveInfo i iid <;> simp [hr]

/-- C3 counterexample: a DescribeInstances response containing two matching
instances split across two reservations (two instances in total) is not
rejected as ambiguous — getInstance returns the first instance's data instead
of an error. -/
theorem C3_counterexample :
    (((DescribeInstancesOutput.mk [⟨[runningInst]⟩, ⟨[stoppedInst]⟩]).reservations.map
        (fun r => r.instances.length)).sum = 2) ∧
    getInstance ⟨fun _ => .ok ⟨[⟨[runningInst]⟩, ⟨[stoppedInst]⟩]⟩, false⟩ "i-dup"
      = .ok runningInst := by
  exact ⟨rfl, rfl⟩

/-- C3 (amended): getInstance inspects only the first reservation of the
response: it errors "missing instance id" when there are no reservations or
the first reservation has no instances, errors "found multiple instances"
when the first reservation holds more than one instance (returning neither
instance's data), and proceeds exactly when the first reservation holds one
instance, returning it; instances in later reservations are ignored. -/
theorem C3_getInstance_first_reservation :
    ∀ i iid resp, i.ec2Client iid = .ok resp →
      ((resp.reservations = [] → getInstance i iid = .error ("missing instance id: " ++ iid)) ∧
       (∀ r0 rs, resp.reservations = r0 :: rs →
         ((r0.instances = [] → getInstance i iid = .error ("missing instance id: " ++ iid)) ∧
          (∀ x, r0.instances = [x] → getInstance i iid = .ok x) ∧
          (∀ x y zs, r0.instances = x :: y :: zs →
            getInstance i iid
              = .error ("found multiple instances with instance id: " ++ iid))))) := by
  intro i iid resp hresp
  refine ⟨fun h0 => ?_, fun r0 rs hr => ⟨fun h0 => ?_, fun x hx => ?_, fun x y zs hxyz => ?_⟩⟩
  · simp [getInstance, hresp, h0]
  · simp [getInstance, hresp, hr, h0]
  · simp [getInstance, hresp, hr, hx]
  · simp [getInstance, hresp, hr, hxyz]

/-- Witness for C3 (amended) at concrete inputs: an empty response is reported
as missing, a two-instance first reservation as ambiguous, and a one-instance
first reservation is returned. -/
theorem C3_getInstance_first_reservation_witness :
    getInstance ⟨fun _ => .ok ⟨[]⟩, false⟩ "i-0" = .error ("missing instance id: " ++ "i-0") ∧
    getInstance ⟨fun _ => .ok ⟨[⟨[runningInst, stoppedInst]⟩]⟩, false⟩ "i-1"
      = .error ("found multiple instances with instance id: " ++ "i-1") ∧
    getInstance ⟨fun _ => .ok ⟨[⟨[runningInst]⟩]⟩, false⟩ "i-2" = .ok runningInst := by
  refine ⟨?_, ?_, ?_⟩
  · exact (C3_getInstance_first_reservation ⟨fun _ => .ok ⟨[]⟩, false⟩ "i-0" ⟨[]⟩ rfl).1 rfl
  · exact ((C3_getInstance_first_reservation ⟨fun _ => .ok ⟨[⟨[runningInst, stoppedInst]⟩]⟩, false⟩
      "i-1" ⟨[⟨[runningInst, stoppedInst]⟩]⟩ rfl).2 ⟨[runningInst, stoppedInst]⟩ [] rfl).2.2
      runningInst stoppedInst [] rfl
  · exact ((C3_getInstance_first_reservation ⟨fun _ => .ok ⟨[⟨[runningInst]⟩]⟩, false⟩
      "i-2" ⟨[⟨[runningInst]⟩]⟩ rfl).2 ⟨[runningInst]⟩ [] rfl).2.1 runningInst rfl

/-- C5: for every singly-matched instance, IdentifyNode's resolution returns
an error naming the offending state whenever the reported state is not
"running", and proceeds to label derivation exactly when the state is
"running"; with caching disabled the call result of IdentifyNode is exactly
this resolution result. -/
theorem C5_running_state_gate :
    (∀ i iid inst, getInstance i iid = .ok inst →
      instStateName inst ≠ instanceStateNameRunning →
      resolveInfo i iid
        = .error ("found instance " ++ quoted iid ++ ", but state is "
            ++ quoted (instStateName inst))) ∧
    (∀ i iid inst, getInstance i iid = .ok inst →
      instStateName inst = instanceStateNameRunning →
      resolveInfo i iid = .ok ⟨iid, deriveLabels inst⟩) ∧
    (∀ i cb st now node iid, i.cacheEnabled = false →
      parseProviderID node.name node.spec.providerID = .ok iid →
      (identifyNode i cb st now node).1 = resolveInfo i iid) :=
  ⟨resolveInfo_error_state,
   resolveInfo_ok_state,
   fun i cb st now node iid hc hp => identifyNode_nocache i cb st now node iid hc hp⟩

/-- Witness for C5 at concrete inputs: a stopped instance is rejected with an
error naming "stopped"; a running instance resolves successfully. -/
theorem C5_running_state_gate_witness :
    resolveInfo ⟨fun _ => .ok ⟨[⟨[stoppedInst]⟩]⟩, false⟩ "i-1"
      = .error ("found instance " ++ quoted "i-1" ++ ", but state is " ++ quoted "stopped") ∧
    resolveInfo ⟨fun _ => .ok ⟨[⟨[runningInst]⟩]⟩, false⟩ "i-2"
      = .ok ⟨"i-2", deriveLabels runningInst⟩ := by
  constructor
  · exact C5_running_state_gate.1 ⟨fun _ => .ok ⟨[⟨[stoppedInst]⟩]⟩, false⟩ "i-1" stoppedInst
      rfl (by decide)
  · exact C5_running_state_gate.2.1 ⟨fun _ => .ok ⟨[⟨[runningInst]⟩]⟩, false⟩ "i-2" runningInst
      rfl rfl

/-- C9: if the matched instance's State field is absent (nil), IdentifyNode
does not fail abnormally: the state name is taken to be "?" and the state
check rejects the instance with an error naming "?". -/
theorem C9_nil_state_reported_as_question_mark :
    ∀ i iid inst, inst.state = none → getInstance i iid = .ok inst →
      instStateName inst = "?" ∧
      resolveInfo i iid
        = .error ("found instance " ++ quoted iid ++ ", but state is " ++ quoted "?") := by
  intro i iid inst hstate hget
  have hname : instStateName inst = "?" := by
    simp [instStateName, hstate]
  refine ⟨hname, ?_⟩
  have := resolveInfo_error_state i iid inst hget (by rw [hname]; decide)
  rwa [hname] at this

/-- Witness for C9 at concrete inputs: a sole instance whose State is nil is
rejected with the state rendered as "?". -/
theorem C9_nil_state_reported_as_question_mark_witness :
    instStateName ⟨none, none, []⟩ = "?" ∧
    resolveInfo ⟨fun _ => .ok ⟨[⟨[⟨none, none, []⟩]⟩]⟩, false⟩ "i-9"
      = .error ("found instance " ++ quoted "i-9" ++ ", but state is " ++ quoted "?") :=
  C9_nil_state_reported_as_question_mark ⟨fun _ => .ok ⟨[⟨[⟨none, none, []⟩]⟩]⟩, false⟩
    "i-9" ⟨none, none, []⟩ rfl rfl

/-- A string is a left factor of its own append, at the character level. -/
theorem toList_isPrefixOf_append (p k : String) :
    p.toList.isPrefixOf ((p ++ k).toList) = true := by
  rw [List.isPrefixOf_iff_prefix]
  exact List.prefix_append _ _

/-- Dropping the length of the left factor of an append recovers the right
factor, at the character level. -/
theorem toList_drop_append (p k : String) :
    (p ++ k).toList.drop p.length = k.toList :=
  List.drop_left p.toList k.toList

/-- Inserting keeps every present key present, and makes the inserted key
present. -/
theorem insertLabel_mem_key (ls : List (String × String)) (k v k' : String)
    (h : (∃ v', (k', v') ∈ ls) ∨ k' = k) : ∃ v', (k', v') ∈ insertLabel ls k v := by
  rcases h with ⟨v', hv⟩ | rfl
  · by_cases hk : k' = k
    · exact ⟨v, by simp [insertLabel, hk]⟩
    · exact ⟨v', by simp [insertLabel, List.mem_filter, hv, hk]⟩
  · exact ⟨v, by simp [insertLabel]⟩

/-- The tag fold never removes a key already present in the label map. -/
theorem foldl_applyTag_preserve : ∀ (tags : List EC2Tag) (ls : List (String × String))
    (k' : String), (∃ v', (k', v') ∈ ls) → ∃ v', (k', v') ∈ tags.foldl applyTag ls
  | [], _, _, h => h
  | t :: ts, ls, k', h => by
    simp only [List.foldl_cons]
    apply foldl_applyTag_preserve ts
    unfold applyTag
    split
    · exact insertLabel_mem_key _ _ _ _ (Or.inl h)
    · exact h

/-- Every tag in the fold whose key carries the autoscaler namespace leaves
its stripped key present in the resulting label map. -/
theorem foldl_applyTag_mem : ∀ (tags : List EC2Tag) (ls : List (String × String))
    (tag : EC2Tag), tag ∈ tags →
    ClusterAutoscalerNodeTemplateLabel.toList.isPrefixOf (stringValue tag.key).toList = true →
    ∃ v', (String.mk ((stringValue tag.key).toList.drop ClusterAutoscalerNodeTemplateLabel.length), v')
      ∈ tags.foldl applyTag ls
  | t :: ts, ls, tag, htag, hp => by
    simp only [List.foldl_cons]
    rcases List.mem_cons.mp htag with rfl | hmem
    · apply foldl_applyTag_preserve ts
      refine ⟨stringValue tag.value, ?_⟩
      unfold applyTag
      rw [if_pos hp]
      simp [insertLabel]
    · exact foldl_applyTag_mem ts (applyTag ls t) tag hmem hp

/-- A spot instance, used to exhibit the synthesized lifecycle label key. -/
def spotInst : Instance := ⟨some ⟨some "running"⟩, some "spot", []⟩

/-- C6 counterexample: for a lifecycle attribute "spot" the synthesized label
key is `node-role.kubernetes.io/spot-worker`, not `node-role/spot-worker` as
the claim words it. -/
theorem C6_counterexample :
    deriveLabels spotInst = [("node-role.kubernetes.io/spot-worker", "true")] ∧
    ("node-role/spot-worker", "true") ∉ deriveLabels spotInst := by
  constructor
  · rfl
  · decide

/-- C6 (amended): label derivation starts from an empty label set; a
non-default lifecycle attribute synthesizes
`node-role.kubernetes.io/<lifecycle>-worker = "true"`; every tag whose key
starts with the autoscaler node-template namespace contributes a label under
the key with the namespace stripped (a tag `<namespace>foo = bar` alone yields
exactly the label `foo = bar`); a tag without the namespace contributes no
label. -/
theorem C6_label_derivation :
    (∀ st, deriveLabels ⟨st, none, []⟩ = []) ∧
    (∀ st lc, deriveLabels ⟨st, some lc, []⟩
      = [("node-role.kubernetes.io/" ++ lc ++ "-worker", "true")]) ∧
    (∀ st k v, deriveLabels ⟨st, none, [⟨some (ClusterAutoscalerNodeTemplateLabel ++ k), some v⟩]⟩
      = [(k, v)]) ∧
    (∀ st key v, ClusterAutoscalerNodeTemplateLabel.toList.isPrefixOf key.toList = false →
      deriveLabels ⟨st, none, [⟨some key, some v⟩]⟩ = []) ∧
    (∀ inst tag, tag ∈ inst.tags →
      ClusterAutoscalerNodeTemplateLabel.toList.isPrefixOf (stringValue tag.key).toList = true →
      ∃ v', (String.mk ((stringValue tag.key).toList.drop ClusterAutoscalerNodeTemplateLabel.length), v')
        ∈ deriveLabels inst) := by
  refine ⟨fun st => rfl, fun st lc => rfl, fun st k v => ?_, fun st key v h => ?_, fun inst tag htag hp => ?_⟩
  · simp only [deriveLabels, List.foldl_cons, List.foldl_nil, applyTag, stringValue]
    rw [if_pos (toList_isPrefixOf_append _ _), toList_drop_append]
    rfl
  · simp only [deriveLabels, List.foldl_cons, List.foldl_nil, applyTag, stringValue]
    rw [if_neg (by rw [h]; exact Bool.false_ne_true)]
  · exact foldl_applyTag_mem inst.tags _ tag htag hp

/-- Witness for C6 at concrete inputs: no lifecycle and no tags yields no
labels; lifecycle "spot" yields its `node-role.kubernetes.io` label; a
namespaced tag `foo = bar` yields label `foo = bar`; an un-namespaced tag
yields nothing; the namespaced tag's key is present in the result. -/
theorem C6_label_derivation_witness :
    deriveLabels ⟨none, none, []⟩ = [] ∧
    deriveLabels ⟨none, some "spot", []⟩
      = [("node-role.kubernetes.io/" ++ "spot" ++ "-worker", "true")] ∧
    deriveLabels ⟨none, none, [⟨some (ClusterAutoscalerNodeTemplateLabel ++ "foo"), some "bar"⟩]⟩
      = [("foo", "bar")] ∧
    deriveLabels ⟨none, none, [⟨some "other-key", some "bar"⟩]⟩ = [] ∧
    (∃ v', (String.mk ((stringValue (some (ClusterAutoscalerNodeTemplateLabel ++ "foo"))).toList.drop
        ClusterAutoscalerNodeTemplateLabel.length), v')
      ∈ deriveLabels ⟨none, none, [⟨some (ClusterAutoscalerNodeTemplateLabel ++ "foo"), some "bar"⟩]⟩) := by
  refine ⟨C6_label_derivation.1 none, C6_label_derivation.2.1 none "spot",
    C6_label_derivation.2.2.1 none "foo" "bar",
    C6_label_derivation.2.2.2.1 none "other-key" "bar" (by decide),
    C6_label_derivation.2.2.2.2 ⟨none, none, [⟨some (ClusterAutoscalerNodeTemplateLabel ++ "foo"), some "bar"⟩]⟩
      ⟨some (ClusterAutoscalerNodeTemplateLabel ++ "foo"), some "bar"⟩ (by simp) (by decide)⟩

/-- With caching enabled and a healthy cache, a cache hit is returned directly:
no cloud call, no cache write, cache state unchanged. -/
theorem identifyNode_cache_hit (i : NodeIdentifier) (cb : CacheBehavior) (st : CacheState)
    (now : Nat) (node : Node) (iid : String) (info : Info)
    (hen : i.cacheEnabled = true) (hrf : cb.readFails = false)
    (hp : parseProviderID node.name node.spec.providerID = .ok iid)
    (hget : cacheGet st now iid = some info) :
    identifyNode i cb st now node = (.ok info, st, ⟨1, [], 0⟩) := by
  simp [identifyNode, hp, hen, hrf, hget]

/-- With caching enabled and a healthy cache, a cache miss resolves via the
cloud and inserts the resolved info. -/
theorem identifyNode_cache_miss (i : NodeIdentifier) (cb : CacheBehavior) (st : CacheState)
    (now : Nat) (node : Node) (iid : String) (info : Info)
    (hen : i.cacheEnabled = true) (hrf : cb.readFails = false) (hwf : cb.writeFails = false)
    (hp : parseProviderID node.name node.spec.providerID = .ok iid)
    (hget : cacheGet st now iid = none)
    (hres : resolveInfo i iid = .ok info) :
    identifyNode i cb st now node = (.ok info, cacheAdd st now info, ⟨1, [iid], 1⟩) := by
  simp [identifyNode, hp, hen, hrf, hwf, hget, hres]

/-- An EC2 client that always answers with the single running instance. -/
def oneRunClient : String → Except String DescribeInstancesOutput :=
  fun _ => .ok ⟨[⟨[runningInst]⟩]⟩

/-- A node identifier over `oneRunClient` with caching enabled. -/
def cachedIdentifier : NodeIdentifier := ⟨oneRunClient, true⟩

/-- A cache with neither read nor write faults. -/
def okCacheBehavior : CacheBehavior := ⟨false, false⟩

/-- A node whose provider id parses to instance id `i-123`. -/
def testNode : Node := ⟨"node-1", ⟨"aws:///us-test-1a/i-123"⟩⟩

/-- C4: with caching enabled, a cache entry is never returned once its age
exceeds the 60-minute TTL; two IdentifyNode calls for the same instance id
within the TTL window make exactly one cloud call in total (the first call
makes it, the second is cache-served with none), and a call issued after TTL
expiry makes a new cloud call. -/
theorem C4_cache_ttl :
    (∀ st now key info, cacheGet st now key = some info →
      ∃ e, e ∈ st.entries ∧ e.info = info ∧ now - e.insertedAt ≤ cacheTTL) ∧
    (∀ t0, (identifyNode cachedIdentifier okCacheBehavior ⟨[]⟩ t0 testNode).2.2.cloudKeys.length
      = 1) ∧
    (∀ t0 t1, t1 - t0 ≤ cacheTTL →
      (identifyNode cachedIdentifier okCacheBehavior
        (identifyNode cachedIdentifier okCacheBehavior ⟨[]⟩ t0 testNode).2.1 t1 testNode).2.2.cloudKeys
        = [] ∧
      (identifyNode cachedIdentifier okCacheBehavior
        (identifyNode cachedIdentifier okCacheBehavior ⟨[]⟩ t0 testNode).2.1 t1 testNode).1
        = (identifyNode cachedIdentifier okCacheBehavior ⟨[]⟩ t0 testNode).1) ∧
    (∀ t0 t2, cacheTTL < t2 - t0 →
      (identifyNode cachedIdentifier okCacheBehavior
        (identifyNode cachedIdentifier okCacheBehavior ⟨[]⟩ t0 testNode).2.1 t2 testNode).2.2.cloudKeys.length
        = 1) := by
  have hparse : parseProviderID testNode.name testNode.spec.providerID = .ok "i-123" := rfl
  have hres : resolveInfo cachedIdentifier "i-123" = .ok ⟨"i-123", []⟩ := rfl
  have hcall1 : ∀ t0, identifyNode cachedIdentifier okCacheBehavior ⟨[]⟩ t0 testNode
      = (.ok ⟨"i-123", []⟩, ⟨[⟨⟨"i-123", []⟩, t0⟩]⟩, ⟨1, ["i-123"], 1⟩) := by
    intro t0
    exact identifyNode_cache_miss cachedIdentifier okCacheBehavior ⟨[]⟩ t0 testNode
      "i-123" ⟨"i-123", []⟩ rfl rfl rfl hparse rfl hres
  refine ⟨?_, ?_, ?_, ?_⟩
  · intro st now key info h
    unfold cacheGet at h
    split at h
    · exact absurd h (by simp)
    · next e hf =>
      split at h
      · next httl => exact ⟨e, List.mem_of_find?_eq_some hf, Option.some.inj h, httl⟩
      · exact absurd h (by simp)
  · intro t0
    rw [hcall1 t0]
    rfl
  · intro t0 t1 h
    have hget : cacheGet ⟨[⟨⟨"i-123", []⟩, t0⟩]⟩ t1 "i-123" = some ⟨"i-123", []⟩ := by
      show (if t1 - t0 ≤ cacheTTL then some (⟨"i-123", []⟩ : Info) else none)
        = some ⟨"i-123", []⟩
      rw [if_pos h]
    rw [hcall1 t0]
    rw [identifyNode_cache_hit cachedIdentifier okCacheBehavior ⟨[⟨⟨"i-123", []⟩, t0⟩]⟩ t1
      testNode "i-123" ⟨"i-123", []⟩ rfl rfl hparse hget]
    exact ⟨rfl, rfl⟩
  · intro t0 t2 h
    have hget : cacheGet ⟨[⟨⟨"i-123", []⟩, t0⟩]⟩ t2 "i-123" = none := by
      show (if t2 - t0 ≤ cacheTTL then some (⟨"i-123", []⟩ : Info) else none) = none
      rw [if_neg (Nat.not_le.mpr h)]
    rw [hcall1 t0]
    rw [identifyNode_cache_miss cachedIdentifier okCacheBehavior ⟨[⟨⟨"i-123", []⟩, t0⟩]⟩ t2
      testNode "i-123" ⟨"i-123", []⟩ rfl rfl rfl hparse hget hres]
    rfl

/-- Witness for C4 at concrete times: insertion at time 0, a hit at time 1,
and a refreshing miss at time `cacheTTL + 1`. -/
theorem C4_cache_ttl_witness :
    (identifyNode cachedIdentifier okCacheBehavior ⟨[]⟩ 0 testNode).2.2.cloudKeys.length = 1 ∧
    (identifyNode cachedIdentifier okCacheBehavior
      (identifyNode cachedIdentifier okCacheBehavior ⟨[]⟩ 0 testNode).2.1 1 testNode).2.2.cloudKeys
      = [] ∧
    (identifyNode cachedIdentifier okCacheBehavior
      (identifyNode cachedIdentifier okCacheBehavior ⟨[]⟩ 0 testNode).2.1 (cacheTTL + 1)
        testNode).2.2.cloudKeys.length = 1 :=
  ⟨C4_cache_ttl.2.1 0, (C4_cache_ttl.2.2.1 0 1 (by decide)).1,
   C4_cache_ttl.2.2.2 0 (cacheTTL + 1) (by simp)⟩

/-- C7: cache failures are best-effort and atomic: a cache read fault makes
the call behave (in result and events) exactly as with an empty cache — a
miss; a cache write fault changes neither the call result nor the cache
state; and no error-returning path of IdentifyNode ever changes the cache
state, so a cache insert only happens after full successful resolution. -/
theorem C7_cache_failures_best_effort_atomic :
    (∀ i cb st now node, cb.readFails = true →
      (identifyNode i cb st now node).1 = (identifyNode i cb ⟨[]⟩ now node).1 ∧
      (identifyNode i cb st now node).2.2 = (identifyNode i cb ⟨[]⟩ now node).2.2) ∧
    (∀ i rf st now node,
      (identifyNode i ⟨rf, true⟩ st now node).1
        = (identifyNode i ⟨rf, false⟩ st now node).1 ∧
      (identifyNode i ⟨rf, true⟩ st now node).2.1 = st) ∧
    (∀ i cb st now node e, (identifyNode i cb st now node).1 = .error e →
      (identifyNode i cb st now node).2.1 = st) := by
  refine ⟨?_, ?_, ?_⟩
  · intro i cb st now node h
    unfold identifyNode
    cases hp : parseProviderID node.name node.spec.providerID with
    | error e => exact ⟨rfl, rfl⟩
    | ok iid =>
      cases hen : i.cacheEnabled <;>
        cases hr : resolveInfo i iid <;>
          cases hw : cb.writeFails <;>
            simp [h, hen, hr, hw]
  · intro i rf st now node
    unfold identifyNode
    cases hp : parseProviderID node.name node.spec.providerID with
    | error e => exact ⟨rfl, rfl⟩
    | ok iid =>
      cases hen : i.cacheEnabled <;>
        cases hrf : rf <;>
          cases hg : cacheGet st now iid <;>
            cases hr : resolveInfo i iid <;>
              simp [hen, hrf, hg, hr]
  · intro i cb st now node e
    unfold identifyNode
    cases hp : parseProviderID node.name node.spec.providerID with
    | error e2 => intro _; rfl
    | ok iid =>
      cases hen : i.cacheEnabled <;>
        cases hrf : cb.readFails <;>
          cases hg : cacheGet st now iid <;>
            cases hr : resolveInfo i iid <;>
              cases hw : cb.writeFails <;>
                simp [hen, hrf, hg, hr, hw]

/-- Witness for C7 at concrete inputs: a read fault over a non-empty cache
behaves as over the empty cache; a write fault leaves the result intact and
the cache unchanged; a failing cloud call leaves the cache unchanged. -/
theorem C7_cache_failures_best_effort_atomic_witness :
    ((identifyNode cachedIdentifier ⟨true, false⟩ ⟨[⟨⟨"i-999", []⟩, 0⟩]⟩ 5 testNode).1
      = (identifyNode cachedIdentifier ⟨true, false⟩ ⟨[]⟩ 5 testNode).1 ∧
     (identifyNode cachedIdentifier ⟨true, false⟩ ⟨[⟨⟨"i-999", []⟩, 0⟩]⟩ 5 testNode).2.2
      = (identifyNode cachedIdentifier ⟨true, false⟩ ⟨[]⟩ 5 testNode).2.2) ∧
    ((identifyNode cachedIdentifier ⟨false, true⟩ ⟨[]⟩ 0 testNode).1
      = (identifyNode cachedIdentifier ⟨false, false⟩ ⟨[]⟩ 0 testNode).1 ∧
     (identifyNode cachedIdentifier ⟨false, true⟩ ⟨[]⟩ 0 testNode).2.1 = ⟨[]⟩) ∧
    (identifyNode ⟨fun _ => .error "ec2 down", true⟩ okCacheBehavior ⟨[]⟩ 0 testNode).2.1
      = ⟨[]⟩ :=
  ⟨C7_cache_failures_best_effort_atomic.1 cachedIdentifier ⟨true, false⟩
      ⟨[⟨⟨"i-999", []⟩, 0⟩]⟩ 5 testNode rfl,
   C7_cache_failures_best_effort_atomic.2.1 cachedIdentifier false ⟨[]⟩ 0 testNode,
   C7_cache_failures_best_effort_atomic.2.2 ⟨fun _ => .error "ec2 down", true⟩
     okCacheBehavior ⟨[]⟩ 0 testNode
     ("error from ec2 DescribeInstances request: " ++ "ec2 down") rfl⟩


/-- If the command loop returns success, the file it leaves holds contents
whose digest is the expected one. -/
theorem tryCommandsForURL_ok (w : FetchWorld) (expected url : String) :
    ∀ (cmds : List String) (file : Option String),
      (tryCommandsForURL w expected url cmds file).2.2 = true →
      ∃ c, (tryCommandsForURL w expected url cmds file).1 = some c ∧ w.sha256 c = expected
  | [], file, h => by simp [tryCommandsForURL] at h
  | cmd :: rest, file, h => by
    rcases ht : w.transfer cmd url with _ | content
    · rcases htr : tryCommandsForURL w expected url rest file with ⟨f, n, done⟩
      simp only [tryCommandsForURL, ht, htr] at h ⊢
      have := tryCommandsForURL_ok w expected url rest file
      rw [htr] at this
      exact this h
    · by_cases hv : validateHash w (some content) expected = true
      · simp only [tryCommandsForURL, ht, hv, if_true] at h ⊢
        exact ⟨content, rfl, of_decide_eq_true hv⟩
      · rcases htr : tryCommandsForURL w expected url rest none with ⟨f, n, done⟩
        simp only [tryCommandsForURL, ht, htr, hv, if_false] at h ⊢
        have := tryCommandsForURL_ok w expected url rest none
        rw [htr] at this
        exact this h

/-- If the command loop starts with no file and does not return, it leaves no
file behind: every mismatching download was removed. -/
theorem tryCommandsForURL_fail (w : FetchWorld) (expected url : String) :
    ∀ (cmds : List String),
      (tryCommandsForURL w expected url cmds none).2.2 = false →
      (tryCommandsForURL w expected url cmds none).1 = none
  | [], _ => rfl
  | cmd :: rest, h => by
    rcases ht : w.transfer cmd url with _ | content
    · rcases htr : tryCommandsForURL w expected url rest none with ⟨f, n, done⟩
      simp only [tryCommandsForURL, ht, htr] at h ⊢
      have := tryCommandsForURL_fail w expected url rest
      rw [htr] at this
      exact this h
    · by_cases hv : validateHash w (some content) expected = true
      · simp [tryCommandsForURL, ht, hv] at h
      · rcases htr : tryCommandsForURL w expected url rest none with ⟨f, n, done⟩
        simp only [tryCommandsForURL, ht, htr, hv, if_false] at h ⊢
        have := tryCommandsForURL_fail w expected url rest
        rw [htr] at this
        exact this h

/-- If the URL pass returns success, the final file's digest is the expected
one. -/
theorem tryURLs_ok (w : FetchWorld) (expected : String) :
    ∀ (urls : List String) (file : Option String),
      (tryURLs w expected urls file).2.2 = true →
      ∃ c, (tryURLs w expected urls file).1 = some c ∧ w.sha256 c = expected
  | [], file, h => by simp [tryURLs] at h
  | url :: rest, file, h => by
    rcases hc : tryCommandsForURL w expected url downloadCommands file with ⟨f1, n1, done1⟩
    rcases hd : done1 with _ | _
    · rcases hu : tryURLs w expected rest f1 with ⟨f2, n2, done2⟩
      simp only [tryURLs, hc, hd, hu, if_false, Bool.false_eq_true] at h ⊢
      have := tryURLs_ok w expected rest f1
      rw [hu] at this
      exact this h
    · simp only [tryURLs, hc, hd, if_true] at h ⊢
      have := tryCommandsForURL_ok w expected url downloadCommands file
      rw [hc] at this
      exact this hd

/-- If the URL pass starts with no file and does not return, it leaves no
file behind. -/
theorem tryURLs_fail (w : FetchWorld) (expected : String) :
    ∀ (urls : List String),
      (tryURLs w expected urls none).2.2 = false →
      (tryURLs w expected urls none).1 = none
  | [], _ => rfl
  | url :: rest, h => by
    rcases hc : tryCommandsForURL w expected url downloadCommands none with ⟨f1, n1, done1⟩
    rcases hd : done1 with _ | _
    · have hf1 : f1 = none := by
        have := tryCommandsForURL_fail w expected url downloadCommands
        rw [hc] at this
        exact this hd
      subst hf1
      rcases hu : tryURLs w expected rest none with ⟨f2, n2, done2⟩
      simp only [tryURLs, hc, hd, hu, if_false, Bool.false_eq_true] at h ⊢
      have := tryURLs_fail w expected rest
      rw [hu] at this
      exact this h
    · simp [tryURLs, hc, hd] at h

/-- If the fueled retry loop returns success, the final file's digest is the
expected one. -/
theorem downloadLoop_ok (w : FetchWorld) (expected : String) (urls : List String) :
    ∀ (fuel : Nat) (file : Option String),
      (downloadLoop w expected urls fuel file).2.2.2 = true →
      ∃ c, (downloadLoop w expected urls fuel file).1 = some c ∧ w.sha256 c = expected
  | 0, file, h => by simp [downloadLoop] at h
  | fuel + 1, file, h => by
    rcases hu : tryURLs w expected urls file with ⟨f1, n1, done1⟩
    rcases hd : done1 with _ | _
    · rcases hl : downloadLoop w expected urls fuel f1 with ⟨f2, n2, s2, done2⟩
      simp only [downloadLoop, hu, hd, hl, if_false, Bool.false_eq_true] at h ⊢
      have := downloadLoop_ok w expected urls fuel f1
      rw [hl] at this
      exact this h
    · simp only [downloadLoop, hu, hd, if_true] at h ⊢
      have := tryURLs_ok w expected urls file
      rw [hu] at this
      exact this hd

/-- If the fueled retry loop starts with no file and does not return, it
leaves no file behind. -/
theorem downloadLoop_fail (w : FetchWorld) (expected : String) (urls : List String) :
    ∀ (fuel : Nat),
      (downloadLoop w expected urls fuel none).2.2.2 = false →
      (downloadLoop w expected urls fuel none).1 = none
  | 0, _ => rfl
  | fuel + 1, h => by
    rcases hu : tryURLs w expected urls none with ⟨f1, n1, done1⟩
    rcases hd : done1 with _ | _
    · have hf1 : f1 = none := by
        have := tryURLs_fail w expected urls
        rw [hu] at this
        exact this hd
      subst hf1
      rcases hl : downloadLoop w expected urls fuel none with ⟨f2, n2, s2, done2⟩
      simp only [downloadLoop, hu, hd, hl, if_false, Bool.false_eq_true] at h ⊢
      have := downloadLoop_fail w expected urls fuel
      rw [hl] at this
      exact this h
    · simp [downloadLoop, hu, hd] at h

/-- C2: the fetch never ends with a mismatching file at the destination: if
download-or-bust returns, the destination file's digest equals the expected
checksum (whether the file pre-existed or was freshly downloaded), and if it
has not returned (fuel exhausted mid-loop), no file is left at the
destination — every file that failed validation was deleted before
continuing. -/
theorem C2_fetch_integrity :
    ∀ (w : FetchWorld) (fuel : Nat) (file0 : Option String) (expected : String)
      (urls : List String),
      ((downloadOrBust w fuel file0 expected urls).2.2.2 = true →
        ∃ c, (downloadOrBust w fuel file0 expected urls).1 = some c ∧
          w.sha256 c = expected) ∧
      ((downloadOrBust w fuel file0 expected urls).2.2.2 = false →
        (downloadOrBust w fuel file0 expected urls).1 = none) := by
  intro w fuel file0 expected urls
  rcases file0 with _ | c0
  · exact ⟨downloadLoop_ok w expected urls fuel none, downloadLoop_fail w expected urls fuel⟩
  · by_cases hv : validateHash w (some c0) expected = true
    · constructor
      · intro _
        refine ⟨c0, ?_, of_decide_eq_true hv⟩
        rw [downloadOrBust, if_pos hv]
      · intro h
        rw [downloadOrBust, if_pos hv] at h
        simp at h
    · rw [downloadOrBust, if_neg hv]
      exact ⟨downloadLoop_ok w expected urls fuel none, downloadLoop_fail w expected urls fuel⟩

/-- The mirror scenario of the spec's end-to-end test: a transport whose
downloads complete for both mirrors, with wrong bytes for `u1` and right
bytes for `u2`; the digest of contents `c` is modelled as `c ++ "#sha"`. -/
def mirrorWorld : FetchWorld :=
  ⟨fun _cmd url => if url = "u1" then some "wrong" else if url = "u2" then some "right" else none,
   fun c => c ++ "#sha"⟩

/-- Witness for C2 at concrete inputs: the mirror scenario returns, and the
final file's digest is the expected checksum. -/
theorem C2_fetch_integrity_witness :
    (downloadOrBust mirrorWorld 1 none "right#sha" ["u1", "u2"]).2.2.2 = true ∧
    ∃ c, (downloadOrBust mirrorWorld 1 none "right#sha" ["u1", "u2"]).1 = some c ∧
      mirrorWorld.sha256 c = "right#sha" :=
  ⟨rfl, (C2_fetch_integrity mirrorWorld 1 none "right#sha" ["u1", "u2"]).1 rfl⟩

/-- C8 counterexample: in the mirror scenario (`mirrorURLs = [u1, u2]`, wrong
bytes for u1, right bytes for u2) the script records 5 transport attempts —
all four download commands are tried against u1 and fail validation, then the
first command fetches u2 — not 2 as the claim states. -/
theorem C8_counterexample :
    downloadOrBust mirrorWorld 1 none "right#sha" ["u1", "u2"]
      = (some "right", 5, 0, true) ∧
    (downloadOrBust mirrorWorld 1 none "right#sha" ["u1", "u2"]).2.1 ≠ 2 := by
  exact ⟨rfl, by decide⟩

/-- C8 (amended): in the end-to-end scenario with mirrors `[u1, u2]`, expected
checksum `H`, wrong bytes for `u1` and right bytes for `u2`, the call returns
without signaling an error, the final file's digest is `H`, and exactly 5
transport attempts are recorded: the four download commands (compressed-capable
curl first, then the alternatives) each try `u1` and fail validation, then the
first command fetches `u2`. -/
theorem C8_mirror_scenario :
    downloadOrBust mirrorWorld 1 none "right#sha" ["u1", "u2"]
      = (some "right", 5, 0, true) ∧
    mirrorWorld.sha256 "right" = "right#sha" ∧
    downloadCommands.length = 4 :=
  ⟨rfl, rfl, rfl⟩
